import Mathlib

/-!
Verification of the Steam showcase generator (scripts/update_steam_showcase.py):
a shallow embedding of its profile data model, derived display fields,
cache codec, avatar fetch and SVG renderer, with theorems settling the
specification claims.

Conventions of the embedding:
* Python strings are modelled as `String` / `List Char` (`Chars`); all string
  manipulation that proofs need to reason about is done on `List Char`.
* Unix timestamps and other Python ints are `Int`; Python floor
  division/modulo (`//`, `%`, `divmod`) are `Int.fdiv` / `Int.fmod`.
* The wall clock read by `datetime.datetime.now(tz=utc)` is passed in
  explicitly as an integer number `now` of Unix seconds (sub-second precision
  is irrelevant to every integer-second field the code reads off a timedelta).
* Fallible stdlib calls are modelled by `Option`.
-/

/-- Character-list view of strings; all low-level string work happens here. -/
abbrev Chars := List Char

/-! ## Models of the Python stdlib string helpers used by the script -/

/-- One character of `xml.sax.saxutils.escape` (default entity table):
`&` ↦ `&amp;`, `<` ↦ `&lt;`, `>` ↦ `&gt;`, all else unchanged. -/
def escapeChar (c : Char) : Chars :=
  if c = '&' then ['&', 'a', 'm', 'p', ';']
  else if c = '<' then ['&', 'l', 't', ';']
  else if c = '>' then ['&', 'g', 't', ';']
  else [c]

/-- `xml.sax.saxutils.escape` with the default entity table: the sequential
`str.replace` chain (`&` first, then `<`, then `>`) acts character-wise. -/
def escape : Chars → Chars
  | [] => []
  | c :: t => escapeChar c ++ escape t

/-- `escape` on `String`. -/
def escapeStr (s : String) : String := ⟨escape s.data⟩

/-- The whitespace class of Python `str.strip()` (no argument). -/
def pyIsSpace (c : Char) : Bool :=
  c = ' ' || c = '\t' || c = '\n' || c = '\r' || c = '\x0b' || c = '\x0c'

/-- Python `str.strip()`: drop leading and trailing whitespace. -/
def pyStrip (l : Chars) : Chars :=
  ((l.dropWhile pyIsSpace).reverse.dropWhile pyIsSpace).reverse

/-- `str.strip()` on `String`. -/
def pyStripStr (s : String) : String := ⟨pyStrip s.data⟩

/-- `text.split('\n')`: split into lines at every newline (keeping empties). -/
def splitNL : Chars → List Chars
  | [] => [[]]
  | c :: t =>
    if c = '\n' then [] :: splitNL t
    else
      match splitNL t with
      | [] => [[c]]
      | l :: ls => (c :: l) :: ls

/-- Rejoin lines with `'\n'` (inverse of `splitNL`). -/
def joinNL : List Chars → Chars
  | [] => []
  | [l] => l
  | l :: l2 :: ls => l ++ '\n' :: joinNL (l2 :: ls)

/-- Space or tab: the characters `textwrap.dedent` treats as indentation. -/
def isSpaceTab (c : Char) : Bool := c = ' ' || c = '\t'

/-- A line matching dedent's `^[ \t]+$` regex (whitespace-only, nonempty). -/
def isWsOnlyLine (l : Chars) : Bool := !l.isEmpty && l.all isSpaceTab

/-- dedent normalizes whitespace-only lines to empty before anything else. -/
def normalizeLine (l : Chars) : Chars := if isWsOnlyLine l then [] else l

/-- Leading `[ \t]*` indentation of a line. -/
def lineIndent (l : Chars) : Chars := l.takeWhile isSpaceTab

/-- Longest common prefix of two character lists. -/
def commonPre : Chars → Chars → Chars
  | a :: as, b :: bs => if a = b then a :: commonPre as bs else []
  | _, _ => []

/-- The margin `textwrap.dedent` computes: the longest common leading
whitespace of all lines that have content (after ws-only normalization). -/
def marginOf (lines : List Chars) : Chars :=
  match (lines.filter (fun l => !l.isEmpty)).map lineIndent with
  | [] => []
  | i :: is => is.foldl commonPre i

/-- Strip the margin from one line (dedent's `re.sub('(?m)^'+margin, '')`):
only lines that actually start with the margin are shortened. -/
def removeMargin (m l : Chars) : Chars :=
  if m.isPrefixOf l then l.drop m.length else l

/-- `textwrap.dedent`: normalize whitespace-only lines, compute the common
leading-whitespace margin of the remaining lines, strip it everywhere. -/
def dedent (l : Chars) : Chars :=
  let lines := (splitNL l).map normalizeLine
  joinNL (lines.map (removeMargin (marginOf lines)))

/-- Number of (possibly overlapping) occurrences of the nonempty pattern
`pat` in `l`; used to state where user-controlled text shows up in output. -/
def countSubstr (pat : Chars) : Chars → Nat
  | [] => 0
  | c :: t => (if pat.isPrefixOf (c :: t) then 1 else 0) + countSubstr pat t

/-- Occurrences of character `c` in a `String`. -/
def countCh (c : Char) (s : String) : Nat := s.data.count c

/-- The base64 alphabet of `base64.b64encode`. -/
def b64Table : Chars :=
  "ABCDEFGHIJKLMNOPQRSTUVWXYZabcdefghijklmnopqrstuvwxyz0123456789+/".data

/-- One base64 alphabet character. -/
def b64Char (n : Nat) : Char := b64Table.getD n 'A'

/-- `base64.b64encode` over a byte list (each byte < 256), with padding. -/
def b64encode : List Nat → Chars
  | [] => []
  | [a] => [b64Char (a / 4), b64Char (a % 4 * 16), '=', '=']
  | [a, b] => [b64Char (a / 4), b64Char (a % 4 * 16 + b / 16), b64Char (b % 16 * 4), '=']
  | a :: b :: c :: rest =>
    [b64Char (a / 4), b64Char (a % 4 * 16 + b / 16), b64Char (b % 16 * 4 + c / 64),
     b64Char (c % 64)] ++ b64encode rest

/-- UTF-8 bytes of an ASCII-only string (`str.encode('utf-8')`; every string
this is applied to in the script is pure ASCII). -/
def utf8Ascii (s : String) : List Nat := s.data.map Char.toNat

/-! ## The built-in placeholder avatar (module-level constants) -/

/-- `_DEFAULT_AVATAR_SVG`: the triple-quoted literal with `.strip()` applied,
exactly as at module load. -/
def _DEFAULT_AVATAR_SVG : String := pyStripStr ("
<svg xmlns='http://www.w3.org/2000/svg' width='88' height='88' viewBox='0 0 88 88'>
  <defs>
    <linearGradient id='avatarGradient' x1='0' y1='0' x2='1' y2='1'>
      <stop offset='0%' stop-color='#1B2838'/>
      <stop offset='100%' stop-color='#3C9BD6'/>
    </linearGradient>
  </defs>
  <rect width='88' height='88' rx='18' fill='url(#avatarGradient)'/>
  <g fill='none' stroke='rgba(255,255,255,0.4)' stroke-width='2'>
    <circle cx='44' cy='36' r='16'/>
    <path d='M18 76c6-12 15-20 26-20s20 8 26 20' stroke-linecap='round'/>
  </g>
</svg>
")

/-- `DEFAULT_AVATAR_DATA_URI`: base64 data URI of the placeholder SVG. -/
def DEFAULT_AVATAR_DATA_URI : String :=
  "data:image/svg+xml;base64," ++ ⟨b64encode (utf8Ascii _DEFAULT_AVATAR_SVG)⟩

/-! ## Data model (`BadgeHighlight`, `RecentGame`, `SteamProfile`) -/

/-- `@dataclass BadgeHighlight`. -/
structure BadgeHighlight where
  name : String
  level : Option Int := none
deriving DecidableEq, Repr

/-- `@dataclass RecentGame`. -/
structure RecentGame where
  name : String
  playtime_2weeks : Int
deriving DecidableEq, Repr

/-- `@dataclass SteamProfile`: raw fields only; display fields are the
derivation functions below (Python computes them as properties on access). -/
structure SteamProfile where
  steamid : String
  personaname : String
  profileurl : String
  avatarfull : String
  avatar_data_uri : Option String := none
  realname : Option String := none
  loccountrycode : Option String := none
  timecreated : Option Int := none
  lastlogoff : Option Int := none
  personastate : Int := 0
  personastateflags : Option Int := none
  level : Option Int := none
  badge_highlights : List BadgeHighlight := []
  recent_games : List RecentGame := []
deriving DecidableEq, Repr

/-! ## Derived display fields -/

/-- `SteamProfile.persona_state_label`: `states.get(self.personastate, "Unknown")`
over the literal 0–6 dict. -/
def persona_state_label (ps : Int) : String :=
  if ps = 0 then "Offline"
  else if ps = 1 then "Online"
  else if ps = 2 then "Busy"
  else if ps = 3 then "Away"
  else if ps = 4 then "Snooze"
  else if ps = 5 then "Looking to Trade"
  else if ps = 6 then "Looking to Play"
  else "Unknown"

/-- Python `chr`: valid for code points `0..0x10FFFF`, raises `ValueError`
outside (modelled by `none`).  Every code point this script can feed it is
above the surrogate range, so `Char.ofNat` is exact on the `some` branch. -/
def pyChr (n : Int) : Option Char :=
  if 0 ≤ n ∧ n ≤ 1114111 then some (Char.ofNat n.toNat) else none

/-- One code point of Python `str.upper()`, which applies the Unicode full
uppercase mapping and may therefore expand one character into several
(CPython consults SpecialCasing.txt: `'ß'.upper() == "SS"`).  The expansion
is modelled exactly on ASCII (where upper never changes length and agrees
with `Char.toUpper`) and on the length-changing `'ß'`; the remaining
non-ASCII code points are modelled as identity, and every theorem below
quantifies only over the exact domain (plus fully concrete instances). -/
def pyUpperChar (c : Char) : Chars :=
  if c.toNat ≤ 127 then [Char.toUpper c]
  else if c = 'ß' then ['S', 'S']
  else [c]

/-- Python `str.upper()`: concatenation of the per-code-point uppercase
expansions, so the result can be longer than the input. -/
def pyUpper (l : Chars) : Chars := (l.map pyUpperChar).flatten

/-- `SteamProfile.country_flag`: falsy check on the raw code, then
`code = self.loccountrycode.upper()` (see `pyUpper` — the length can
change), the `len(code) != 2` check on the UPPERCASED code, then
`chr(0x1F1E6 + ord(ch) - ord('A'))` per character of `code`; a `ValueError`
from `chr` makes the whole property `None`. -/
def country_flag (lcc : Option String) : Option String :=
  match lcc with
  | none => none
  | some s =>
    if s = "" then none
    else if (pyUpper s.data).length ≠ 2 then none
    else
      match (pyUpper s.data).mapM
          (fun ch => pyChr (0x1F1E6 + (ch.toNat : Int) - 65)) with
      | some cs => some ⟨cs⟩
      | none => none

/-- Smallest Unix timestamp `datetime.fromtimestamp(_, tz=utc)` accepts
(0001-01-01T00:00:00Z); below it the call raises (modelled bound). -/
def minValidTS : Int := -62135596800

/-- Largest Unix timestamp `datetime.fromtimestamp(_, tz=utc)` accepts in
whole seconds (9999-12-31T23:59:59Z); above it the call raises. -/
def maxValidTS : Int := 253402300799

/-- Month abbreviations produced by `strftime('%b')` in the C locale. -/
def monthAbbrev (m : Nat) : String :=
  match m with
  | 1 => "Jan" | 2 => "Feb" | 3 => "Mar" | 4 => "Apr" | 5 => "May" | 6 => "Jun"
  | 7 => "Jul" | 8 => "Aug" | 9 => "Sep" | 10 => "Oct" | 11 => "Nov" | 12 => "Dec"
  | _ => ""

/-- Proleptic-Gregorian civil date (year, month, day) of a day count from
the Unix epoch — the date arithmetic behind `datetime.fromtimestamp(_, utc)`
(standard days-to-civil algorithm). -/
def civilFromDays (z0 : Int) : Int × Nat × Nat :=
  let z := z0 + 719468
  let era := z.fdiv 146097
  let doe := (z - era * 146097).toNat
  let yoe := (doe - doe / 1460 + doe / 36524 - doe / 146096) / 365
  let doy := doe - (365 * yoe + yoe / 4 - yoe / 100)
  let mp := (5 * doy + 2) / 153
  let d := doy - (153 * mp + 2) / 5 + 1
  let m := if mp < 10 then mp + 3 else mp - 9
  let y := (yoe : Int) + era * 400
  (if m ≤ 2 then y + 1 else y, m, d)

/-- `SteamProfile.member_since`: falsy check on `timecreated` (so both `None`
and `0` give `None`), `fromtimestamp` range errors give `None`, otherwise
`strftime('%b %Y')` in UTC (`%Y` modelled as the plain decimal year). -/
def member_since (tc : Option Int) : Option String :=
  match tc with
  | none => none
  | some t =>
    if t = 0 then none
    else if t < minValidTS ∨ maxValidTS < t then none
    else some (monthAbbrev (civilFromDays (t.fdiv 86400)).2.1 ++ " " ++
      toString (civilFromDays (t.fdiv 86400)).1)

/-- `SteamProfile.last_seen`: falsy check on `lastlogoff` (`None`/`0` give
`None`), `fromtimestamp` range errors give `None`; otherwise
`delta = now - lastlogoff` as a `timedelta`, whose integer fields are
`days = total.fdiv 86400` and `seconds = total.fmod 86400`, tiered as in the
source: days ≥ 1, then nonzero hours, then minutes floored at 1. -/
def last_seen (now : Int) (ll : Option Int) : Option String :=
  match ll with
  | none => none
  | some t =>
    if t = 0 then none
    else if t < minValidTS ∨ maxValidTS < t then none
    else if 1 ≤ (now - t).fdiv 86400 then
      some (toString ((now - t).fdiv 86400) ++ "d ago")
    else if ((now - t).fmod 86400).fdiv 3600 ≠ 0 then
      some (toString (((now - t).fmod 86400).fdiv 3600) ++ "h ago")
    else some (toString (max 1 (((now - t).fmod 86400).fdiv 60)) ++ "m ago")

/-- `human_minutes`: `divmod(minutes, 60)` with Python int truthiness on the
two parts. -/
def human_minutes (minutes : Int) : String :=
  if minutes.fdiv 60 ≠ 0 ∧ minutes.fmod 60 ≠ 0 then
    toString (minutes.fdiv 60) ++ "h " ++ toString (minutes.fmod 60) ++ "m"
  else if minutes.fdiv 60 ≠ 0 then toString (minutes.fdiv 60) ++ "h"
  else toString (minutes.fmod 60) ++ "m"

/-! ## Renderer (`render_svg`)

The f-string of `render_svg` is split at its interpolation slots into the
literal segments `TPL1`–`TPL11` below (base indentation 8, first character a
newline, exactly as between the triple quotes in the source); `render_svg`
re-assembles them around the escaped dynamic fields, then applies
`textwrap.dedent` and `str.strip` as the source does. -/

/-- Segment up to the `{avatar}` slot. -/
def TPL1 : String := "
        <svg width=\"360\" height=\"260\" viewBox=\"0 0 360 260\" fill=\"none\" xmlns=\"http://www.w3.org/2000/svg\">
          <defs>
            <linearGradient id=\"steamCardGradient\" x1=\"0\" y1=\"0\" x2=\"1\" y2=\"1\">
              <stop offset=\"0%\" stop-color=\"#0B141C\" />
              <stop offset=\"45%\" stop-color=\"#13283D\" />
              <stop offset=\"100%\" stop-color=\"#1E405F\" />
            </linearGradient>
            <filter id=\"steamCardShadow\" x=\"-20%\" y=\"-20%\" width=\"140%\" height=\"140%\">
              <feDropShadow dx=\"0\" dy=\"14\" stdDeviation=\"18\" flood-color=\"#040A14\" flood-opacity=\"0.55\" />
            </filter>
            <clipPath id=\"avatarClip\">
              <rect x=\"24\" y=\"26\" width=\"88\" height=\"88\" rx=\"18\" />
            </clipPath>
          </defs>
          <g filter=\"url(#steamCardShadow)\">
            <rect x=\"0\" y=\"0\" width=\"360\" height=\"260\" rx=\"22\" fill=\"url(#steamCardGradient)\" stroke=\"rgba(102,192,244,0.35)\" />
          </g>
          <image href=\""

/-- Segment between `{avatar}` and `{escape(profile.personaname)}`. -/
def TPL2 : String := "\" x=\"24\" y=\"26\" width=\"88\" height=\"88\" clip-path=\"url(#avatarClip)\" preserveAspectRatio=\"xMidYMid slice\" />
          <rect x=\"24\" y=\"26\" width=\"88\" height=\"88\" rx=\"18\" fill=\"rgba(15, 29, 44, 0.4)\" stroke=\"rgba(102,192,244,0.45)\" />
          <g transform=\"translate(128 40)\" font-family=\"'Segoe UI', 'Inter', sans-serif\">
            <text x=\"0\" y=\"0\" font-size=\"24\" font-weight=\"700\" fill=\"#F5FAFF\">"

/-- Segment between the name and `{escape(level_text)}`. -/
def TPL3 : String := "</text>
            <text x=\"0\" y=\"18\" font-size=\"12\" fill=\"#90ABC4\">"

/-- Segment between the level text and `{escape(status)}`. -/
def TPL4 : String := "</text>
            <text x=\"0\" y=\"38\" font-size=\"12\" fill=\"#6E8BA8\">"

/-- Segment between the status and `{escape(info_line)}`. -/
def TPL5 : String := "</text>
            <text x=\"0\" y=\"58\" font-size=\"11\" fill=\"#4DA6DA\">"

/-- Segment between the info line and `{escape(recent[0].name)}`. -/
def TPL6 : String := "</text>
          </g>
          <g transform=\"translate(24 136)\" font-family=\"'Segoe UI', 'Inter', sans-serif\">
            <rect width=\"312\" height=\"52\" rx=\"16\" fill=\"rgba(15, 29, 44, 0.7)\" stroke=\"rgba(102,192,244,0.3)\" />
            <text x=\"20\" y=\"24\" font-size=\"13\" font-weight=\"600\" fill=\"#66C0F4\">Recent playtime</text>
            <text x=\"20\" y=\"36\" font-size=\"12\" fill=\"#B5D8F2\">
              <tspan x=\"20\" dy=\"0\">"

/-- Separator between a rendered name and its playtime (an em dash). -/
def EMDASH : String := " — "

/-- Segment between the first game's playtime and `{recent_lines}`. -/
def TPL7 : String := "</tspan>\n              "

/-- Segment between `{recent_lines}` and `{escape(badge_label(badges[0]))}`. -/
def TPL8 : String := "
            </text>
          </g>
          <g transform=\"translate(24 196)\" font-family=\"'Segoe UI', 'Inter', sans-serif\">
            <rect width=\"312\" height=\"52\" rx=\"16\" fill=\"rgba(12, 24, 36, 0.65)\" stroke=\"rgba(102,192,244,0.3)\" />
            <text x=\"20\" y=\"24\" font-size=\"13\" font-weight=\"600\" fill=\"#66C0F4\">Badge highlights</text>
            <text x=\"20\" y=\"36\" font-size=\"12\" fill=\"#B5D8F2\">
              <tspan x=\"20\" dy=\"0\">"

/-- Segment between the first badge label and `{badge_lines}`. -/
def TPL9 : String := "</tspan>\n              "

/-- Segment between `{badge_lines}` and `{escape(profile.profileurl)}`. -/
def TPL10 : String := "
            </text>
          </g>
          <a href=\""

/-- Final segment, to the end of the f-string (newline plus 8 spaces). -/
def TPL11 : String := "\" target=\"_blank\" rel=\"noreferrer\">
            <rect x=\"260\" y=\"30\" width=\"76\" height=\"30\" rx=\"10\" fill=\"rgba(18, 42, 60, 0.75)\" stroke=\"rgba(102,192,244,0.4)\" />
            <text x=\"298\" y=\"50\" font-family=\"'Segoe UI', 'Inter', sans-serif\" font-size=\"11\" font-weight=\"600\" fill=\"#F5FAFF\" text-anchor=\"middle\">View</text>
          </a>
        </svg>\n        "

/-- The truncated recent-games list: `recent = profile.recent_games[:3]`,
replaced by the placeholder when empty (`if not recent`). -/
def recentOf (p : SteamProfile) : List RecentGame :=
  if p.recent_games.take 3 = [] then [⟨"No recent games", 0⟩]
  else p.recent_games.take 3

/-- The truncated badge list: `badges = profile.badge_highlights[:3]`,
replaced by the placeholder when empty. -/
def badgesOf (p : SteamProfile) : List BadgeHighlight :=
  if p.badge_highlights.take 3 = [] then [⟨"Collector", none⟩]
  else p.badge_highlights.take 3

/-- `badge_label`: the name, with `· Lv{level}` appended only when the level
is truthy (present and nonzero). -/
def badge_label (b : BadgeHighlight) : String :=
  match b.level with
  | none => b.name
  | some lv => if lv = 0 then b.name else b.name ++ " · Lv" ++ toString lv

/-- Python `if s:` on an optional string, as used to build `info_lines`:
contributes the string only when it is present and nonempty. -/
def truthyStr (o : Option String) : List String :=
  match o with
  | none => []
  | some s => if s = "" then [] else [s]

/-- The `info_lines` list: real name, country flag and membership line, each
appended only when truthy. -/
def info_linesOf (p : SteamProfile) : List String :=
  truthyStr p.realname ++ truthyStr (country_flag p.loccountrycode) ++
    (match member_since p.timecreated with
     | none => []
     | some m => if m = "" then [] else ["Member since " ++ m])

/-- `info_line = "  ·  ".join(info_lines)`. -/
def info_lineOf (p : SteamProfile) : String :=
  String.intercalate "  ·  " (info_linesOf p)

/-- The `status` local of `render_svg`: the persona label, with the
last-seen suffix appended when `profile.last_seen` is truthy and
`personastate == 0`. -/
def statusOf (p : SteamProfile) (now : Int) : String :=
  match last_seen now p.lastlogoff with
  | none => persona_state_label p.personastate
  | some ls =>
    if ls ≠ "" ∧ p.personastate = 0 then
      persona_state_label p.personastate ++ " (" ++ ls ++ ")"
    else persona_state_label p.personastate

/-- `avatar = escape(profile.avatar_data_uri or DEFAULT_AVATAR_DATA_URI)`,
before escaping (Python `or` takes the default for `None` and `""`). -/
def avatarOf (p : SteamProfile) : String :=
  match p.avatar_data_uri with
  | none => DEFAULT_AVATAR_DATA_URI
  | some s => if s = "" then DEFAULT_AVATAR_DATA_URI else s

/-- `level_text`: `is not None` check (a level of 0 still prints). -/
def level_textOf (p : SteamProfile) : String :=
  match p.level with
  | none => "Level hidden"
  | some lv => "Level " ++ toString lv

/-- One entry of `recent_lines`. -/
def recentLineOf (g : RecentGame) : Chars :=
  ("<tspan x='20' dy='16'>").data ++ escape g.name.data ++ EMDASH.data ++
    (human_minutes g.playtime_2weeks).data ++ ("</tspan>").data

/-- `recent_lines`: joined tspans for `recent[1:]`. -/
def recent_linesOf (p : SteamProfile) : Chars :=
  (((recentOf p).drop 1).map recentLineOf).flatten

/-- One entry of `badge_lines`. -/
def badgeLineOf (b : BadgeHighlight) : Chars :=
  ("<tspan x='20' dy='16'>").data ++ escape (badge_label b).data ++ ("</tspan>").data

/-- `badge_lines`: joined tspans for `badges[1:]`. -/
def badge_linesOf (p : SteamProfile) : Chars :=
  (((badgesOf p).drop 1).map badgeLineOf).flatten

/-- `recent[0]`; `recentOf` is never empty, so the fallback is unreachable. -/
def firstRecent (p : SteamProfile) : RecentGame :=
  match recentOf p with
  | g :: _ => g
  | [] => ⟨"No recent games", 0⟩

/-- `badges[0]`; `badgesOf` is never empty, so the fallback is unreachable. -/
def firstBadge (p : SteamProfile) : BadgeHighlight :=
  match badgesOf p with
  | b :: _ => b
  | [] => ⟨"Collector", none⟩

/-- Everything of the f-string before the `{escape(profile.personaname)}`
slot (contains the avatar slot). -/
def renderPre (p : SteamProfile) : Chars :=
  TPL1.data ++ escape (avatarOf p).data ++ TPL2.data

/-- The f-string between the name slot and the `{escape(status)}` slot
(contains the level-text slot). -/
def renderMid (p : SteamProfile) : Chars :=
  TPL3.data ++ escape (level_textOf p).data ++ TPL4.data

/-- Everything of the f-string after the status slot: info line, the two
list sections and the profile link. -/
def renderPost (p : SteamProfile) : Chars :=
  TPL5.data ++ escape (info_lineOf p).data ++ TPL6.data ++
    escape (firstRecent p).name.data ++ EMDASH.data ++
    (human_minutes (firstRecent p).playtime_2weeks).data ++ TPL7.data ++
    recent_linesOf p ++ TPL8.data ++
    escape (badge_label (firstBadge p)).data ++ TPL9.data ++
    badge_linesOf p ++ TPL10.data ++
    escape p.profileurl.data ++ TPL11.data

/-- The fully interpolated f-string of `render_svg`, before
`textwrap.dedent` and `.strip()`, given the computed `status` local. -/
def renderRaw (p : SteamProfile) (status : String) : Chars :=
  renderPre p ++ escape p.personaname.data ++ renderMid p ++
    escape status.data ++ renderPost p

/-- `render_svg`: interpolate, `textwrap.dedent`, `.strip()`.  `now` is the
instant `datetime.datetime.now(tz=utc)` returns inside
`SteamProfile.last_seen` during the render. -/
def render_svg (p : SteamProfile) (now : Int) : String :=
  ⟨pyStrip (dedent (renderRaw p (statusOf p now)))⟩

/-! ## Cache codec (`save_profile_cache` / `load_cached_profile`)

The JSON document is modelled shape-exactly: one record per object, every
field `Option`-valued with `none` for an absent key.  (`json.load` hands
`dict.get` the same `None` for a JSON `null` as for a missing key, so the
two are identified, matching every `raw.get` in `load_cached_profile`.) -/

/-- One element of the cache's `badge_highlights` array. -/
structure CachedBadge where
  name : Option String
  level : Option Int
deriving DecidableEq, Repr

/-- One element of the cache's `recent_games` array. -/
structure CachedGame where
  name : Option String
  playtime_2weeks : Option Int
deriving DecidableEq, Repr

/-- The flat cache JSON object. -/
structure CacheData where
  steamid : Option String
  personaname : Option String
  profileurl : Option String
  avatarfull : Option String
  avatar_data_uri : Option String
  realname : Option String
  loccountrycode : Option String
  timecreated : Option Int
  lastlogoff : Option Int
  personastate : Option Int
  personastateflags : Option Int
  level : Option Int
  badge_highlights : Option (List CachedBadge)
  recent_games : Option (List CachedGame)
deriving DecidableEq, Repr

/-- `save_profile_cache`: writes every raw field and the full (untruncated)
badge and recent-game lists; derived display fields are never written. -/
def save_profile_cache (p : SteamProfile) : CacheData where
  steamid := some p.steamid
  personaname := some p.personaname
  profileurl := some p.profileurl
  avatarfull := some p.avatarfull
  avatar_data_uri := p.avatar_data_uri
  realname := p.realname
  loccountrycode := p.loccountrycode
  timecreated := p.timecreated
  lastlogoff := p.lastlogoff
  personastate := some p.personastate
  personastateflags := p.personastateflags
  level := p.level
  badge_highlights := some (p.badge_highlights.map fun b => ⟨some b.name, b.level⟩)
  recent_games := some (p.recent_games.map fun g => ⟨some g.name, some g.playtime_2weeks⟩)

/-- `int(raw.get("personastate", 0) or 0)` on an int-or-missing value:
missing gives the default 0, and `or 0` maps a stored 0 to 0 (identity on
ints, kept for faithfulness to the truthiness idiom). -/
def personastateOfRaw (o : Option Int) : Int :=
  match o with
  | none => 0
  | some v => if v = 0 then 0 else v

/-- `load_cached_profile` on the parsed JSON: `raw.get` defaulting per
field (`str(...)` on the already-string `steamid` is the identity). -/
def load_cached_profile (raw : CacheData) : SteamProfile where
  steamid := raw.steamid.getD ""
  personaname := raw.personaname.getD "Unknown"
  profileurl := raw.profileurl.getD "https://steamcommunity.com"
  avatarfull := raw.avatarfull.getD ""
  avatar_data_uri := raw.avatar_data_uri
  realname := raw.realname
  loccountrycode := raw.loccountrycode
  timecreated := raw.timecreated
  lastlogoff := raw.lastlogoff
  personastate := personastateOfRaw raw.personastate
  personastateflags := raw.personastateflags
  level := raw.level
  badge_highlights :=
    (raw.badge_highlights.getD []).map fun b => ⟨b.name.getD "Badge", b.level⟩
  recent_games :=
    (raw.recent_games.getD []).map fun g => ⟨g.name.getD "Unknown", g.playtime_2weeks.getD 0⟩

/-! ## Avatar fetch (`fetch_avatar_data`, `_normalize_content_type`) -/

/-- The outcome of `session.get(url, timeout=15)`: status code, raw body
bytes, and the declared `Content-Type` header; `none` for the whole response
models a transport exception.  (The `urlopen` fallback branch taken when
`requests` is missing yields the same observable triple.) -/
structure HttpResponse where
  status : Nat
  body : List Nat
  contentType : Option String
deriving DecidableEq, Repr

/-- `requests.Response.raise_for_status()` raises exactly for 4xx/5xx. -/
def raisesForStatus (status : Nat) : Bool := 400 ≤ status && status < 600

/-- `header.split(";", 1)[0]`: the part before the first `';'`. -/
def beforeSemicolon (s : String) : String := ⟨s.data.takeWhile (fun c => c ≠ ';')⟩

/-- `mimetypes.guess_type` restricted to the image extensions relevant to
avatar URLs (lowercased last extension of the URL); other inputs guess
nothing, like the stdlib does for unknown extensions. -/
def urlExtType (ext : Chars) (url : String) : Option String :=
  if (url.data.contains '.') = false then none
  else if ext = ['j', 'p', 'g'] ∨ ext = ['j', 'p', 'e', 'g'] then some "image/jpeg"
  else if ext = ['p', 'n', 'g'] then some "image/png"
  else if ext = ['g', 'i', 'f'] then some "image/gif"
  else if ext = ['s', 'v', 'g'] then some "image/svg+xml"
  else if ext = ['w', 'e', 'b', 'p'] then some "image/webp"
  else if ext = ['b', 'm', 'p'] then some "image/bmp"
  else none

/-- See `urlExtType`: dispatch after lowercasing the URL's last extension. -/
def guessImageType (url : String) : Option String :=
  urlExtType (((url.data.reverse.takeWhile (fun c => c ≠ '.' ∧ c ≠ '/')).reverse).map
    Char.toLower) url

/-- `_normalize_content_type`: a truthy header is split at `';'` and
stripped; when that yields nothing, fall back to guessing from the URL,
and finally to `"image/jpeg"`. -/
def _normalize_content_type (header : Option String) (url : String) : String :=
  match header with
  | none => (guessImageType url).getD "image/jpeg"
  | some h =>
    if h = "" then (guessImageType url).getD "image/jpeg"
    else if pyStripStr (beforeSemicolon h) ≠ "" then pyStripStr (beforeSemicolon h)
    else (guessImageType url).getD "image/jpeg"

/-- `fetch_avatar_data`: `None` for a falsy URL, transport error, 4xx/5xx
(`raise_for_status`) or empty body; otherwise a self-contained base64 data
URI with the normalized content type. -/
def fetch_avatar_data (resp : Option HttpResponse) (url : String) : Option String :=
  if url = "" then none
  else
    match resp with
    | none => none
    | some r =>
      if raisesForStatus r.status then none
      else if r.body = [] then none
      else some ("data:" ++ _normalize_content_type r.contentType url ++ ";base64," ++
        ⟨b64encode r.body⟩)


/-! ## Concrete fixtures used by counterexamples and witnesses -/

/-- A minimal profile with empty badge and recent-game lists (status 1, no
optional fields). -/
def profileEmptyLists : SteamProfile where
  steamid := "1"
  personaname := "n"
  profileurl := "u"
  avatarfull := ""
  avatar_data_uri := some "d"
  personastate := 1

/-- A profile that is offline with a last logoff 7200 seconds before the
clock value 17200. -/
def profileOffline : SteamProfile where
  steamid := "2"
  personaname := "n"
  profileurl := "u"
  avatarfull := ""
  avatar_data_uri := some "d"
  lastlogoff := some 10000
  personastate := 0

/-- A profile whose display name contains a double quote, a `<` and a `&`. -/
def profileQuoteName : SteamProfile where
  steamid := "3"
  personaname := "x\"y<z&w"
  profileurl := "u"
  avatarfull := ""
  avatar_data_uri := some "d"
  personastate := 1

/-- An offline profile with an early last logoff, rendered at two different
clock values by the clock-dependence counterexample. -/
def profileClock : SteamProfile where
  steamid := "4"
  personaname := "n"
  profileurl := "u"
  avatarfull := ""
  avatar_data_uri := some "d"
  lastlogoff := some 1000
  personastate := 0

/-! # Theorems

First, counting lemmas: `dedent` and `strip` only ever delete whitespace, so
they preserve the number of occurrences of any non-whitespace character;
`escape` produces no `<`/`>`, turns each escaped character into exactly one
`&`, and passes `"` through untouched.  These drive the escaping and
clock-dependence claims about `render_svg`. -/

theorem escape_count_lt (l : Chars) : (escape l).count '<' = 0 := by
  induction l with
  | nil => simp [escape]
  | cons c t ih =>
    rw [escape, List.count_append, ih, Nat.add_zero]
    unfold escapeChar
    by_cases h1 : c = '&' <;> by_cases h2 : c = '<' <;> by_cases h3 : c = '>' <;>
      simp_all [List.count_singleton, List.count_nil, List.count_cons]

theorem escape_count_gt (l : Chars) : (escape l).count '>' = 0 := by
  induction l with
  | nil => simp [escape]
  | cons c t ih =>
    rw [escape, List.count_append, ih, Nat.add_zero]
    unfold escapeChar
    by_cases h1 : c = '&' <;> by_cases h2 : c = '<' <;> by_cases h3 : c = '>' <;>
      simp_all [List.count_singleton, List.count_nil, List.count_cons]

theorem escape_count_amp (l : Chars) :
    (escape l).count '&' = l.count '&' + l.count '<' + l.count '>' := by
  induction l with
  | nil => simp [escape]
  | cons c t ih =>
    rw [escape, List.count_append, ih]
    unfold escapeChar
    by_cases h1 : c = '&' <;> by_cases h2 : c = '<' <;> by_cases h3 : c = '>' <;>
      simp_all [List.count_cons] <;> omega

theorem escape_count_quot (l : Chars) : (escape l).count '"' = l.count '"' := by
  induction l with
  | nil => simp [escape]
  | cons c t ih =>
    rw [escape, List.count_append, ih]
    unfold escapeChar
    by_cases h1 : c = '&' <;> by_cases h2 : c = '<' <;> by_cases h3 : c = '>' <;>
      by_cases h4 : c = '"' <;> (simp_all [List.count_cons]; try omega)

theorem splitNL_ne_nil (l : Chars) : splitNL l ≠ [] := by
  cases l with
  | nil => simp [splitNL]
  | cons c t =>
    unfold splitNL
    by_cases hc : c = '\n'
    · simp [hc]
    · simp only [hc, if_false]
      cases splitNL t <;> simp

theorem count_joinNL (x : Char) (hx : x ≠ '\n') :
    ∀ ls : List Chars, (joinNL ls).count x = (ls.map (fun s => s.count x)).sum
  | [] => by simp [joinNL]
  | [l] => by simp [joinNL]
  | l :: l2 :: ls => by
    have ih := count_joinNL x hx (l2 :: ls)
    rw [joinNL, List.count_append, List.count_cons, ih]
    simp [hx, Ne.symm hx]

theorem count_splitNL (x : Char) (hx : x ≠ '\n') :
    ∀ l : Chars, ((splitNL l).map (fun s => s.count x)).sum = l.count x
  | [] => by simp [splitNL]
  | c :: t => by
    have ih := count_splitNL x hx t
    by_cases hc : c = '\n'
    · subst hc
      rw [splitNL]
      simp only [if_pos rfl, List.map_cons, List.sum_cons, List.count_nil,
        List.count_cons, ih]
      simp [hx, Ne.symm hx]
      exact ih
    · rw [splitNL]
      simp only [hc, if_false]
      have hne := splitNL_ne_nil t
      cases hsp : splitNL t with
      | nil => exact absurd hsp hne
      | cons l ls =>
        rw [hsp] at ih
        simp only [List.map_cons, List.sum_cons] at ih ⊢
        rw [List.count_cons, List.count_cons]
        omega

theorem mem_commonPre_left (x : Char) :
    ∀ a b : Chars, x ∈ commonPre a b → x ∈ a
  | [], _, h => by simp [commonPre] at h
  | _ :: _, [], h => by simp [commonPre] at h
  | a0 :: as, b0 :: bs, h => by
    rw [commonPre] at h
    by_cases hab : a0 = b0
    · rw [if_pos hab] at h
      rcases List.mem_cons.mp h with h | h
      · exact h ▸ List.mem_cons_self a0 as
      · exact List.mem_cons_of_mem a0 (mem_commonPre_left x as bs h)
    · rw [if_neg hab] at h
      exact absurd h (List.not_mem_nil x)

theorem mem_foldl_commonPre (x : Char) :
    ∀ (is : List Chars) (i : Chars), x ∈ is.foldl commonPre i → x ∈ i
  | [], _, h => h
  | j :: is, i, h =>
    mem_commonPre_left x i j (mem_foldl_commonPre x is (commonPre i j) h)

theorem marginOf_spaceTab (lines : List Chars) :
    ∀ x ∈ marginOf lines, isSpaceTab x = true := by
  intro x hx
  unfold marginOf at hx
  split at hx
  · exact absurd hx (List.not_mem_nil x)
  · rename_i i is heq
    have hxi : x ∈ i := mem_foldl_commonPre x is i hx
    have hi : i ∈ (lines.filter (fun l => !l.isEmpty)).map lineIndent := by
      rw [heq]; exact List.mem_cons_self i is
    rcases List.mem_map.mp hi with ⟨l, _, rfl⟩
    exact List.mem_takeWhile_imp hxi

theorem spaceTab_pyIsSpace (x : Char) (h : isSpaceTab x = true) : pyIsSpace x = true := by
  rcases Bool.or_eq_true_iff.mp h with h | h <;>
    exact decide_eq_true_iff.mp h ▸ (by decide)

theorem count_removeMargin (x : Char) (hx : pyIsSpace x = false) (m l : Chars)
    (hm : ∀ y ∈ m, isSpaceTab y = true) :
    (removeMargin m l).count x = l.count x := by
  unfold removeMargin
  by_cases hp : m.isPrefixOf l
  · rw [if_pos hp]
    obtain ⟨t, rfl⟩ := List.isPrefixOf_iff_prefix.mp hp
    rw [List.drop_left, List.count_append]
    have hz : m.count x = 0 := by
      rw [List.count_eq_zero]
      intro hmem
      rw [spaceTab_pyIsSpace x (hm x hmem)] at hx
      exact Bool.noConfusion hx
    omega
  · rw [if_neg hp]

theorem count_normalizeLine (x : Char) (hx : pyIsSpace x = false) (l : Chars) :
    (normalizeLine l).count x = l.count x := by
  unfold normalizeLine
  by_cases h : isWsOnlyLine l = true
  · rw [if_pos h, List.count_nil]
    have h2 := h
    unfold isWsOnlyLine at h2
    have hall := (Bool.and_eq_true_iff.mp h2).2
    symm
    rw [List.count_eq_zero]
    intro hmem
    rw [spaceTab_pyIsSpace x (List.all_eq_true.mp hall x hmem)] at hx
    exact Bool.noConfusion hx
  · rw [if_neg h]

theorem count_dropWhile (x : Char) (p : Char → Bool) (hp : p x = false) :
    ∀ l : Chars, (l.dropWhile p).count x = l.count x
  | [] => rfl
  | c :: t => by
    have ih := count_dropWhile x p hp t
    rw [List.dropWhile_cons]
    by_cases hc : p c = true
    · rw [if_pos hc, ih, List.count_cons]
      have hxc : ¬c = x := fun h => by rw [← h, hc] at hp; exact Bool.noConfusion hp
      have hcx : ¬x = c := fun h => hxc h.symm
      simp [hxc, hcx]
    · rw [if_neg hc]

theorem count_pyStrip (x : Char) (hx : pyIsSpace x = false) (l : Chars) :
    (pyStrip l).count x = l.count x := by
  unfold pyStrip
  rw [List.count_reverse, count_dropWhile x pyIsSpace hx, List.count_reverse,
    count_dropWhile x pyIsSpace hx]

theorem count_dedent (x : Char) (hx : pyIsSpace x = false) (l : Chars) :
    (dedent l).count x = l.count x := by
  have hnl : x ≠ '\n' := by
    intro h
    subst h
    exact absurd hx (by decide)
  show (joinNL (((splitNL l).map normalizeLine).map
    (removeMargin (marginOf ((splitNL l).map normalizeLine))))).count x = l.count x
  rw [count_joinNL x hnl, List.map_map]
  have h1 : ((splitNL l).map normalizeLine).map
      ((fun s => s.count x) ∘ removeMargin (marginOf ((splitNL l).map normalizeLine)))
      = ((splitNL l).map normalizeLine).map (fun s => s.count x) :=
    List.map_congr_left (fun a _ =>
      count_removeMargin x hx _ a (marginOf_spaceTab ((splitNL l).map normalizeLine)))
  rw [h1, List.map_map]
  have h2 : (splitNL l).map ((fun s => s.count x) ∘ normalizeLine)
      = (splitNL l).map (fun s => s.count x) :=
    List.map_congr_left (fun a _ => count_normalizeLine x hx a)
  rw [h2, count_splitNL x hnl]

/-- The count of any non-whitespace character in the final SVG equals its
count in the raw interpolated f-string: `dedent` and `strip` delete only
whitespace. -/
theorem data_render (p : SteamProfile) (now : Int) :
    (render_svg p now).data = pyStrip (dedent (renderRaw p (statusOf p now))) := by
  rw [show render_svg p now
      = String.mk (pyStrip (dedent (renderRaw p (statusOf p now)))) from rfl]

theorem countCh_render (c : Char) (hc : pyIsSpace c = false) (p : SteamProfile) (now : Int) :
    countCh c (render_svg p now) = (renderRaw p (statusOf p now)).count c := by
  unfold countCh
  rw [data_render, count_pyStrip c hc, count_dedent c hc]


/-! ## C6 — status labels -/

/-- C6: `persona_state_label` is total over the integers and never throws:
codes 0–6 map exactly to Offline, Online, Busy, Away, Snooze,
Looking to Trade and Looking to Play, and every other integer (negatives
included) maps to "Unknown". -/
theorem c6_status_label_total :
    persona_state_label 0 = "Offline" ∧ persona_state_label 1 = "Online" ∧
    persona_state_label 2 = "Busy" ∧ persona_state_label 3 = "Away" ∧
    persona_state_label 4 = "Snooze" ∧ persona_state_label 5 = "Looking to Trade" ∧
    persona_state_label 6 = "Looking to Play" ∧
    ∀ c : Int, c < 0 ∨ 6 < c → persona_state_label c = "Unknown" := by
  refine ⟨by decide, by decide, by decide, by decide, by decide, by decide, by decide, ?_⟩
  intro c hc
  unfold persona_state_label
  rw [if_neg (by omega : ¬c = 0), if_neg (by omega : ¬c = 1), if_neg (by omega : ¬c = 2),
    if_neg (by omega : ¬c = 3), if_neg (by omega : ¬c = 4), if_neg (by omega : ¬c = 5),
    if_neg (by omega : ¬c = 6)]

/-- Witness for C6 at the out-of-range code −5. -/
theorem c6_status_label_total_witness : persona_state_label (-5) = "Unknown" :=
  c6_status_label_total.2.2.2.2.2.2.2 (-5) (Or.inl (by decide))

/-! ## C10 — a zero timestamp is treated as missing -/

/-- C10: the Unix epoch timestamp 0 is treated exactly like a missing
timestamp by both falsy checks: `member_since` is `None` for `timecreated`
0 (not "Jan 1970" — which timestamp 1 does produce) and `last_seen` is
`None` for `lastlogoff` 0 at every clock value. -/
theorem c10_epoch_is_falsy :
    member_since (some 0) = none ∧ member_since none = none ∧
    member_since (some 1) = some "Jan 1970" ∧
    (∀ now : Int, last_seen now (some 0) = none) ∧
    (∀ now : Int, last_seen now none = none) :=
  ⟨by decide, rfl, by decide, fun _ => by unfold last_seen; simp, fun _ => rfl⟩

/-! ## C5 — last-seen tiering -/

/-- C5: for a present, valid, past `lastlogoff` the relative-age string is
tiered: at least one day gives "{days}d ago", else at least one hour gives
"{hours}h ago", else minutes floored at 1 give "{minutes}m ago"; a missing
timestamp gives `None`. -/
theorem c5_last_seen_tiering (now t : Int) (hpos : 0 < t) (hmax : t ≤ maxValidTS)
    (hpast : t ≤ now) :
    (86400 ≤ now - t →
      last_seen now (some t) = some (toString ((now - t).fdiv 86400) ++ "d ago")) ∧
    (3600 ≤ now - t → now - t < 86400 →
      last_seen now (some t) = some (toString ((now - t).fdiv 3600) ++ "h ago")) ∧
    (now - t < 3600 →
      last_seen now (some t) = some (toString (max 1 ((now - t).fdiv 60)) ++ "m ago")) ∧
    last_seen now none = none := by
  have h0 : ¬t = 0 := by omega
  have hrange : ¬(t < minValidTS ∨ maxValidTS < t) := by
    unfold minValidTS maxValidTS at *
    omega
  have hfd : (now - t).fdiv 86400 = (now - t) / 86400 :=
    Int.fdiv_eq_ediv _ (by omega)
  have hfm : (now - t).fmod 86400 = (now - t) % 86400 :=
    Int.fmod_eq_emod _ (by omega)
  refine ⟨fun hd => ?_, fun hh1 hh2 => ?_, fun hm => ?_, rfl⟩
  · simp only [last_seen]
    rw [if_neg h0, if_neg hrange, if_pos (by rw [hfd]; omega)]
  · simp only [last_seen]
    rw [if_neg h0, if_neg hrange, if_neg (by rw [hfd]; omega)]
    have hsec : (now - t).fmod 86400 = now - t := by rw [hfm]; omega
    rw [hsec]
    rw [if_pos (by rw [Int.fdiv_eq_ediv _ (by omega : (0:Int) ≤ 3600)]; omega)]
  · simp only [last_seen]
    rw [if_neg h0, if_neg hrange, if_neg (by rw [hfd]; omega)]
    have hsec : (now - t).fmod 86400 = now - t := by rw [hfm]; omega
    rw [hsec]
    rw [if_neg (by rw [Int.fdiv_eq_ediv _ (by omega : (0:Int) ≤ 3600)]; omega)]

/-- Witness for C5 at the three spec instances: 90000 seconds ago is
days-based, 5000 seconds ago hours-based, 30 seconds ago "1m ago". -/
theorem c5_last_seen_tiering_witness :
    last_seen 1000000 (some 910000) = some "1d ago" ∧
    last_seen 1000000 (some 995000) = some "1h ago" ∧
    last_seen 1000000 (some 999970) = some "1m ago" := by
  refine ⟨?_, ?_, ?_⟩
  · exact ((c5_last_seen_tiering 1000000 910000 (by decide) (by decide)
      (by decide)).1 (by decide)).trans (by decide)
  · exact (((c5_last_seen_tiering 1000000 995000 (by decide) (by decide)
      (by decide)).2.1 (by decide)) (by decide)).trans (by decide)
  · exact ((c5_last_seen_tiering 1000000 999970 (by decide) (by decide)
      (by decide)).2.2.1 (by decide)).trans (by decide)

/-! ## C2 — country flag -/

/-- `Char.ofNat` at a valid code point keeps its numeric value. -/
theorem char_toNat_ofNat (n : Nat) (h : n.isValidChar) : (Char.ofNat n).toNat = n := by
  rw [Char.ofNat, dif_pos h]
  rfl

/-- Uppercasing an ASCII letter lands in `[65, 90]`. -/
theorem toUpper_letter_range (c : Char)
    (h : 65 ≤ c.toNat ∧ c.toNat ≤ 90 ∨ 97 ≤ c.toNat ∧ c.toNat ≤ 122) :
    65 ≤ (Char.toUpper c).toNat ∧ (Char.toUpper c).toNat ≤ 90 := by
  unfold Char.toUpper
  by_cases hc : c.toNat ≥ 97 ∧ c.toNat ≤ 122
  · rw [if_pos hc]
    rw [char_toNat_ofNat _ (Or.inl (by omega))]
    omega
  · rw [if_neg hc]
    omega

/-- On ASCII input, `pyUpper` is plain character-wise `Char.toUpper`
(ASCII has no special casing, so Python's upper keeps the length there). -/
theorem pyUpper_ascii (l : Chars) (h : ∀ c ∈ l, c.toNat ≤ 127) :
    pyUpper l = l.map Char.toUpper := by
  induction l with
  | nil => rfl
  | cons c t ih =>
    have hc : pyUpperChar c = [Char.toUpper c] := by
      unfold pyUpperChar
      rw [if_pos (h c (List.mem_cons_self c t))]
    simp only [pyUpper, List.map_cons, List.flatten_cons, hc]
    rw [show (List.map pyUpperChar t).flatten = pyUpper t from rfl]
    rw [ih (fun x hx => h x (List.mem_cons_of_mem c hx))]
    rfl

/-- Evaluation of `country_flag` on any nonempty code whose uppercased form
has exactly the two characters `u1 u2`, both below the `chr` bound: the two
offset-mapped glyphs. -/
theorem country_flag_eval (s : String) (u1 u2 : Char) (hs : s ≠ "")
    (hup : pyUpper s.data = [u1, u2])
    (h1 : u1.toNat ≤ 986714) (h2 : u2.toNat ≤ 986714) :
    country_flag (some s)
      = some ⟨[Char.ofNat (127397 + u1.toNat),
               Char.ofNat (127397 + u2.toNat)]⟩ := by
  simp only [country_flag]
  rw [if_neg hs, hup]
  rw [if_neg (by simp)]
  have e1 : pyChr (0x1F1E6 + (u1.toNat : Int) - 65)
      = some (Char.ofNat (127397 + u1.toNat)) := by
    unfold pyChr
    rw [if_pos (by omega)]
    congr 1
    congr 1
    omega
  have e2 : pyChr (0x1F1E6 + (u2.toNat : Int) - 65)
      = some (Char.ofNat (127397 + u2.toNat)) := by
    unfold pyChr
    rw [if_pos (by omega)]
    congr 1
    congr 1
    omega
  rw [List.mapM_cons, List.mapM_cons, List.mapM_nil, e1, e2]
  simp

/-- C2 counterexample, refuting two clauses of the claim at concrete inputs:
the 2-character non-letter code "12" is not null (`chr` succeeds, returning
the non-regional-indicator glyphs U+1F1D6 U+1F1D7), and the 1-character code
"ß" is not null either — `str.upper()` expands it to "SS", which passes the
length-2 check and yields the SS regional-indicator pair. -/
theorem c2_country_flag_counterexample :
    country_flag (some "12") = some ⟨[Char.ofNat 127446, Char.ofNat 127447]⟩ ∧
    country_flag (some "12") ≠ none ∧
    country_flag (some "ß") = some ⟨[Char.ofNat 127480, Char.ofNat 127480]⟩ ∧
    country_flag (some "ß") ≠ none := by
  refine ⟨by decide, by decide, by decide, by decide⟩

/-- C2 (amended): `country_flag` is null for a missing or empty code and for
any ASCII code whose length differs from 2 (the length test runs on the
UPPERCASED code, which for ASCII has the same length); it maps every
2-letter alphabetic code (either case) to exactly two Unicode
regional-indicator symbols (U+1F1E6–U+1F1FF); a 2-character code with
non-letter characters is NOT null in general — it yields the same offset
mapping (cf. the counterexample), null only when `chr` overflows the
maximal code point — and a non-ASCII code whose uppercase expansion has
length 2, such as "ß" ↦ "SS", produces a flag rather than null. -/
theorem c2_country_flag (s : String) (c1 c2 : Char) :
    country_flag none = none ∧
    country_flag (some "") = none ∧
    ((∀ c ∈ s.data, c.toNat ≤ 127) → s.data.length ≠ 2 →
      country_flag (some s) = none) ∧
    ((65 ≤ c1.toNat ∧ c1.toNat ≤ 90 ∨ 97 ≤ c1.toNat ∧ c1.toNat ≤ 122) →
     (65 ≤ c2.toNat ∧ c2.toNat ≤ 90 ∨ 97 ≤ c2.toNat ∧ c2.toNat ≤ 122) →
     ∃ g1 g2 : Char, country_flag (some ⟨[c1, c2]⟩) = some ⟨[g1, g2]⟩ ∧
       127462 ≤ g1.toNat ∧ g1.toNat ≤ 127487 ∧
       127462 ≤ g2.toNat ∧ g2.toNat ≤ 127487) ∧
    country_flag (some "ß") = some ⟨[Char.ofNat 127480, Char.ofNat 127480]⟩ := by
  refine ⟨rfl, by decide, fun hascii hlen => ?_, fun hl1 hl2 => ?_, by decide⟩
  · simp only [country_flag]
    by_cases hs : s = ""
    · rw [if_pos hs]
    · rw [if_neg hs,
        if_pos (by rw [pyUpper_ascii s.data hascii, List.length_map]; exact hlen)]
  · have hu1 := toUpper_letter_range c1 hl1
    have hu2 := toUpper_letter_range c2 hl2
    have hne : (⟨[c1, c2]⟩ : String) ≠ "" := by
      intro h
      exact List.cons_ne_nil c1 [c2] (congrArg String.data h)
    have hup : pyUpper (⟨[c1, c2]⟩ : String).data
        = [Char.toUpper c1, Char.toUpper c2] := by
      rw [show (⟨[c1, c2]⟩ : String).data = [c1, c2] from rfl]
      rw [pyUpper_ascii [c1, c2] (by
        intro c hc
        rcases List.mem_cons.mp hc with h | h
        · subst h; omega
        · rcases List.mem_cons.mp h with h | h
          · subst h; omega
          · exact absurd h (List.not_mem_nil c))]
      rfl
    refine ⟨Char.ofNat (127397 + (Char.toUpper c1).toNat),
            Char.ofNat (127397 + (Char.toUpper c2).toNat),
            country_flag_eval ⟨[c1, c2]⟩ (Char.toUpper c1) (Char.toUpper c2)
              hne hup (by omega) (by omega), ?_, ?_, ?_, ?_⟩ <;>
      rw [char_toNat_ofNat _ (Or.inr (by constructor <;> omega))] <;> omega

/-- Witness for C2: the 3-letter ASCII code "USA" is null; "US" (and
lowercase "us") map to two regional-indicator glyphs. -/
theorem c2_country_flag_witness :
    country_flag (some "USA") = none ∧
    (∃ g1 g2 : Char, country_flag (some "US") = some ⟨[g1, g2]⟩ ∧
      127462 ≤ g1.toNat ∧ g1.toNat ≤ 127487 ∧
      127462 ≤ g2.toNat ∧ g2.toNat ≤ 127487) ∧
    (∃ g1 g2 : Char, country_flag (some "us") = some ⟨[g1, g2]⟩ ∧
      127462 ≤ g1.toNat ∧ g1.toNat ≤ 127487 ∧
      127462 ≤ g2.toNat ∧ g2.toNat ≤ 127487) :=
  ⟨(c2_country_flag "USA" 'U' 'S').2.2.1 (by decide) (by decide),
   (c2_country_flag "US" 'U' 'S').2.2.2.1 (by decide) (by decide),
   (c2_country_flag "us" 'u' 's').2.2.2.1 (by decide) (by decide)⟩

/-! ## C4 — cache round trip -/

/-- `int(x or 0)` on a present int is that int. -/
theorem personastateOfRaw_some (v : Int) : personastateOfRaw (some v) = v := by
  simp only [personastateOfRaw]
  by_cases h : v = 0
  · rw [if_pos h, h]
  · rw [if_neg h]

/-- C4: the cache round-trip law — loading a saved profile reproduces every
raw field exactly, including the full untruncated badge and recent-game
lists; derived display fields are never stored (the cache record `CacheData`
has no field for them). -/
theorem c4_cache_round_trip (p : SteamProfile) :
    load_cached_profile (save_profile_cache p) = p := by
  have hb : ∀ l : List BadgeHighlight,
      (l.map fun b => (⟨some b.name, b.level⟩ : CachedBadge)).map
        (fun b => (⟨b.name.getD "Badge", b.level⟩ : BadgeHighlight)) = l := by
    intro l
    induction l with
    | nil => rfl
    | cons b t ih => simp [ih]
  have hg : ∀ l : List RecentGame,
      (l.map fun g => (⟨some g.name, some g.playtime_2weeks⟩ : CachedGame)).map
        (fun g => (⟨g.name.getD "Unknown", g.playtime_2weeks.getD 0⟩ : RecentGame)) = l := by
    intro l
    induction l with
    | nil => rfl
    | cons g t ih => simp [ih]
  cases p
  simp [load_cached_profile, save_profile_cache, personastateOfRaw_some, hb, hg]

/-! ## C8 — avatar fetch error handling -/

/-- C8 counterexample: a non-2xx response can succeed — a 301 with a
nonempty body yields a data URI, because `raise_for_status` raises only for
4xx/5xx, so "returns null on any non-2xx response" is false. -/
theorem c8_fetch_avatar_non2xx_counterexample :
    fetch_avatar_data (some ⟨301, [1, 2, 3], some "image/png"⟩) ("http://e/a.png")
      = some "data:image/png;base64,AQID" ∧
    fetch_avatar_data (some ⟨301, [1, 2, 3], some "image/png"⟩) ("http://e/a.png")
      ≠ none := by
  constructor
  · decide
  · decide

/-- C8 (amended): `fetch_avatar_data` never raises past its boundary,
returning null for an empty URL, a transport error, a 4xx/5xx status (the
statuses `raise_for_status` raises for — NOT every non-2xx status) or an
empty body; any other response with a nonempty body yields a self-contained
base64 data URI whose content type is the declared Content-Type, else the
type guessed from the URL extension, else "image/jpeg". -/
theorem c8_fetch_avatar_data (resp : Option HttpResponse) (url : String) (r : HttpResponse) :
    (url = "" → fetch_avatar_data resp url = none) ∧
    fetch_avatar_data none url = none ∧
    (400 ≤ r.status → r.status < 600 → fetch_avatar_data (some r) url = none) ∧
    (r.body = [] → fetch_avatar_data (some r) url = none) ∧
    (url ≠ "" → ¬(400 ≤ r.status ∧ r.status < 600) → r.body ≠ [] →
      fetch_avatar_data (some r) url
        = some ("data:" ++ _normalize_content_type r.contentType url ++ ";base64," ++
            ⟨b64encode r.body⟩)) ∧
    (∀ u : String, _normalize_content_type none u = (guessImageType u).getD "image/jpeg") ∧
    (∀ h u : String, h ≠ "" → pyStripStr (beforeSemicolon h) ≠ "" →
      _normalize_content_type (some h) u = pyStripStr (beforeSemicolon h)) ∧
    (∀ h u : String, h ≠ "" → pyStripStr (beforeSemicolon h) = "" →
      _normalize_content_type (some h) u = (guessImageType u).getD "image/jpeg") := by
  have hraise : ∀ st : Nat, 400 ≤ st → st < 600 → raisesForStatus st = true := by
    intro st h1 h2
    unfold raisesForStatus
    rw [Bool.and_eq_true]
    exact ⟨decide_eq_true h1, decide_eq_true h2⟩
  have hnoraise : ∀ st : Nat, ¬(400 ≤ st ∧ st < 600) → raisesForStatus st = false := by
    intro st h
    unfold raisesForStatus
    rw [Bool.and_eq_false_iff]
    by_cases h4 : 400 ≤ st
    · exact Or.inr (decide_eq_false fun h6 => h ⟨h4, h6⟩)
    · exact Or.inl (decide_eq_false h4)
  refine ⟨fun hu => ?_, ?_, fun h4 h6 => ?_, fun hb => ?_, fun hu hst hb => ?_,
    fun u => rfl, fun h u hne hct => ?_, fun h u hne hct => ?_⟩
  · unfold fetch_avatar_data
    rw [if_pos hu]
  · unfold fetch_avatar_data
    by_cases hu : url = ""
    · rw [if_pos hu]
    · rw [if_neg hu]
  · unfold fetch_avatar_data
    by_cases hu : url = ""
    · rw [if_pos hu]
    · rw [if_neg hu]
      simp only [hraise r.status h4 h6, if_true]
  · unfold fetch_avatar_data
    by_cases hu : url = ""
    · rw [if_pos hu]
    · rw [if_neg hu]
      by_cases hs : raisesForStatus r.status = true
      · simp only [hs, if_true]
      · simp only [Bool.not_eq_true] at hs
        simp only [hs, Bool.false_eq_true, if_false, if_pos hb]
  · unfold fetch_avatar_data
    rw [if_neg hu]
    simp only [hnoraise r.status hst, Bool.false_eq_true, if_false, if_neg hb]
  · simp only [_normalize_content_type]
    rw [if_neg hne, if_pos hct]
  · simp only [_normalize_content_type]
    rw [if_neg hne, if_neg (by simp [hct])]

/-- Witness for C8: a 404 gives null, an empty body gives null, a 200 with
declared type gives its data URI, and a missing header falls back to the
URL extension. -/
theorem c8_fetch_avatar_data_witness :
    fetch_avatar_data (some ⟨404, [1], some "image/png"⟩) ("http://e/a.png") = none ∧
    fetch_avatar_data (some ⟨200, [], some "image/png"⟩) ("http://e/a.png") = none ∧
    fetch_avatar_data (some ⟨200, [77, 97, 110], some "image/png; charset=x"⟩)
      ("http://e/a") = some "data:image/png;base64,TWFu" ∧
    fetch_avatar_data (some ⟨200, [77, 97, 110], none⟩) ("http://e/a.gif")
      = some "data:image/gif;base64,TWFu" := by
  refine ⟨?_, ?_, ?_, ?_⟩
  · exact (c8_fetch_avatar_data (some ⟨404, [1], some "image/png"⟩) ("http://e/a.png")
      ⟨404, [1], some "image/png"⟩).2.2.1 (by decide) (by decide)
  · exact (c8_fetch_avatar_data (some ⟨200, [], some "image/png"⟩) ("http://e/a.png")
      ⟨200, [], some "image/png"⟩).2.2.2.1 (by decide)
  · exact ((c8_fetch_avatar_data (some ⟨200, [77, 97, 110], some "image/png; charset=x"⟩)
      ("http://e/a") ⟨200, [77, 97, 110], some "image/png; charset=x"⟩).2.2.2.2.1
      (by decide) (by decide) (by decide)).trans (by decide)
  · exact ((c8_fetch_avatar_data (some ⟨200, [77, 97, 110], none⟩) ("http://e/a.gif")
      ⟨200, [77, 97, 110], none⟩).2.2.2.2.1
      (by decide) (by decide) (by decide)).trans (by decide)

/-! ## C9 — the last-seen suffix on the status line -/

/-- `last_seen` never returns the empty string (every tier ends in "ago"). -/
theorem last_seen_ne_empty (now : Int) (ll : Option Int) (s : String)
    (h : last_seen now ll = some s) : s ≠ "" := by
  cases ll with
  | none => exact absurd h (by simp [last_seen])
  | some t =>
    simp only [last_seen] at h
    split at h
    · exact absurd h (by simp)
    · split at h
      · exact absurd h (by simp)
      · split at h
        · cases Option.some.inj h
          intro he
          have hlen := congrArg String.length he
          rw [String.length_append] at hlen
          have h5 : ("d ago" : String).length = 5 := rfl
          have h0 : ("" : String).length = 0 := rfl
          omega
        · split at h
          · cases Option.some.inj h
            intro he
            have hlen := congrArg String.length he
            rw [String.length_append] at hlen
            have h5 : ("h ago" : String).length = 5 := rfl
            have h0 : ("" : String).length = 0 := rfl
            omega
          · cases Option.some.inj h
            intro he
            have hlen := congrArg String.length he
            rw [String.length_append] at hlen
            have h5 : ("m ago" : String).length = 5 := rfl
            have h0 : ("" : String).length = 0 := rfl
            omega

/-- The status line of a profile that is not offline is the bare label. -/
theorem statusOf_of_personastate_ne_zero (p : SteamProfile) (now : Int)
    (h : p.personastate ≠ 0) : statusOf p now = persona_state_label p.personastate := by
  unfold statusOf
  cases last_seen now p.lastlogoff with
  | none => rfl
  | some ls =>
    simp only
    rw [if_neg (fun hc => h hc.2)]

/-- The status line of a profile with no last-seen string is the bare label. -/
theorem statusOf_of_last_seen_none (p : SteamProfile) (now : Int)
    (h : last_seen now p.lastlogoff = none) :
    statusOf p now = persona_state_label p.personastate := by
  unfold statusOf
  rw [h]

/-- The status line of an offline profile with a last-seen string carries
the parenthesised suffix. -/
theorem statusOf_offline (p : SteamProfile) (now : Int) (s : String)
    (h0 : p.personastate = 0) (hs : last_seen now p.lastlogoff = some s) :
    statusOf p now = "Offline (" ++ s ++ ")" := by
  unfold statusOf
  rw [hs]
  simp only
  rw [if_pos ⟨last_seen_ne_empty now p.lastlogoff s hs, h0⟩, h0]
  rw [show persona_state_label 0 = "Offline" from rfl]
  rw [show ("Offline" : String) ++ " (" = "Offline (" from rfl]

/-- C9: the rendered status line appends " ({lastSeen})" exactly when the
status code is 0 and a last-seen string exists; with `lastlogoff` two hours
before `now`, the status text is "Offline (2h ago)"; for a nonzero status
code no suffix ever appears. -/
theorem c9_status_line (p : SteamProfile) (now : Int) :
    (p.personastate ≠ 0 → statusOf p now = persona_state_label p.personastate) ∧
    (last_seen now p.lastlogoff = none →
      statusOf p now = persona_state_label p.personastate) ∧
    (∀ s : String, p.personastate = 0 → last_seen now p.lastlogoff = some s →
      statusOf p now = "Offline (" ++ s ++ ")") ∧
    (∀ t : Int, p.personastate = 0 → p.lastlogoff = some t → t = now - 7200 →
      0 < t → t ≤ maxValidTS → statusOf p now = "Offline (2h ago)") := by
  refine ⟨statusOf_of_personastate_ne_zero p now,
    statusOf_of_last_seen_none p now,
    fun s h0 hs => statusOf_offline p now s h0 hs,
    fun t h0 hll ht htpos htmax => ?_⟩
  have hdelta : now - t = 7200 := by omega
  have hls : last_seen now p.lastlogoff = some "2h ago" := by
    rw [hll]
    simp only [last_seen]
    rw [if_neg (by omega), if_neg (by unfold minValidTS maxValidTS at *; omega), hdelta]
    rw [if_neg (by decide), if_pos (by decide)]
    decide
  exact (statusOf_offline p now "2h ago" h0 hls).trans (by decide)

/-- Witness for C9: the offline fixture rendered 7200 seconds after its
logoff shows "Offline (2h ago)"; with status 1 instead, the bare label. -/
theorem c9_status_line_witness :
    statusOf profileOffline 17200 = "Offline (2h ago)" ∧
    statusOf { profileOffline with personastate := 1 } 17200 = "Online" := by
  constructor
  · exact (c9_status_line profileOffline 17200).2.2.2 10000 (by decide) (by decide)
      (by decide) (by decide) (by decide)
  · exact ((c9_status_line { profileOffline with personastate := 1 } 17200).1
      (by decide)).trans (by decide)

/-! ## C7 — truncation to 3 and non-empty placeholders -/

/-- Truncating `recent_games` to 3 beforehand does not change `recentOf`. -/
theorem recentOf_take (p : SteamProfile) :
    recentOf { p with
               recent_games := p.recent_games.take 3
               badge_highlights := p.badge_highlights.take 3 } = recentOf p := by
  simp only [recentOf, List.take_take, Nat.min_self]

/-- Truncating `badge_highlights` to 3 beforehand does not change `badgesOf`. -/
theorem badgesOf_take (p : SteamProfile) :
    badgesOf { p with
               recent_games := p.recent_games.take 3
               badge_highlights := p.badge_highlights.take 3 } = badgesOf p := by
  simp only [badgesOf, List.take_take, Nat.min_self]

/-- C7: the renderer reads only the first 3 recent games and first 3 badges
(entries beyond 3 never change the output), neither rendered list is ever
empty, and an empty source list yields exactly the one placeholder entry
("No recent games" / "Collector") with no further tspans. -/
theorem c7_truncation_and_placeholders (p : SteamProfile) (now : Int) :
    render_svg p now
      = render_svg { p with
                     recent_games := p.recent_games.take 3
                     badge_highlights := p.badge_highlights.take 3 } now ∧
    recentOf p ≠ [] ∧ badgesOf p ≠ [] ∧
    (p.recent_games = [] →
      recentOf p = [⟨"No recent games", 0⟩] ∧ recent_linesOf p = []) ∧
    (p.badge_highlights = [] →
      badgesOf p = [⟨"Collector", none⟩] ∧ badge_linesOf p = []) := by
  refine ⟨?_, ?_, ?_, fun hr => ?_, fun hb => ?_⟩
  · have hfr : firstRecent { p with
        recent_games := p.recent_games.take 3
        badge_highlights := p.badge_highlights.take 3 } = firstRecent p := by
      unfold firstRecent
      rw [recentOf_take]
    have hrl : recent_linesOf { p with
        recent_games := p.recent_games.take 3
        badge_highlights := p.badge_highlights.take 3 } = recent_linesOf p := by
      unfold recent_linesOf
      rw [recentOf_take]
    have hfb : firstBadge { p with
        recent_games := p.recent_games.take 3
        badge_highlights := p.badge_highlights.take 3 } = firstBadge p := by
      unfold firstBadge
      rw [badgesOf_take]
    have hbl : badge_linesOf { p with
        recent_games := p.recent_games.take 3
        badge_highlights := p.badge_highlights.take 3 } = badge_linesOf p := by
      unfold badge_linesOf
      rw [badgesOf_take]
    have hpost : renderPost { p with
        recent_games := p.recent_games.take 3
        badge_highlights := p.badge_highlights.take 3 } = renderPost p := by
      unfold renderPost
      rw [hfr, hrl, hfb, hbl]
      rfl
    have hR : renderRaw { p with
          recent_games := p.recent_games.take 3
          badge_highlights := p.badge_highlights.take 3 }
          (statusOf { p with
            recent_games := p.recent_games.take 3
            badge_highlights := p.badge_highlights.take 3 } now)
        = renderRaw p (statusOf p now) := by
      unfold renderRaw
      rw [hpost]
      rfl
    unfold render_svg
    rw [hR]
  · unfold recentOf
    split
    · simp
    · assumption
  · unfold badgesOf
    split
    · simp
    · assumption
  · have h1 : recentOf p = [⟨"No recent games", 0⟩] := by
      unfold recentOf
      rw [hr]
      rfl
    refine ⟨h1, ?_⟩
    unfold recent_linesOf
    rw [h1]
    rfl
  · have h1 : badgesOf p = [⟨"Collector", none⟩] := by
      unfold badgesOf
      rw [hb]
      rfl
    refine ⟨h1, ?_⟩
    unfold badge_linesOf
    rw [h1]
    rfl

/-- Witness for C7 at the empty-lists fixture: both placeholder entries. -/
theorem c7_truncation_and_placeholders_witness :
    recentOf profileEmptyLists = [⟨"No recent games", 0⟩] ∧
    recent_linesOf profileEmptyLists = [] ∧
    badgesOf profileEmptyLists = [⟨"Collector", none⟩] ∧
    badge_linesOf profileEmptyLists = [] := by
  have h := c7_truncation_and_placeholders profileEmptyLists 0
  exact ⟨(h.2.2.2.1 rfl).1, (h.2.2.2.1 rfl).2, (h.2.2.2.2 rfl).1, (h.2.2.2.2 rfl).2⟩

/-! ## C1 — escaping of free text in the rendered SVG -/

/-- The display name's exact contribution to the number of occurrences of a
non-whitespace character in the rendered SVG: the count for the same
profile with an empty name, plus the count inside the escaped name. -/
theorem count_render_personaname (p : SteamProfile) (now : Int) (c : Char)
    (hc : pyIsSpace c = false) :
    countCh c (render_svg p now)
      = countCh c (render_svg { p with personaname := "" } now)
        + (escape p.personaname.data).count c := by
  rw [countCh_render c hc p now, countCh_render c hc { p with personaname := "" } now]
  have hstat : statusOf { p with personaname := "" } now = statusOf p now := rfl
  have hpre : renderPre { p with personaname := "" } = renderPre p := rfl
  have hmid : renderMid { p with personaname := "" } = renderMid p := rfl
  have hpost : renderPost { p with personaname := "" } = renderPost p := rfl
  have hname : ({ p with personaname := "" } : SteamProfile).personaname = "" := rfl
  unfold renderRaw
  rw [hstat, hpre, hmid, hpost, hname]
  simp only [List.count_append]
  rw [show escape ("" : String).data = [] from rfl, List.count_nil]
  omega

/-- C1 counterexample: the double quote of the display name `x"y<z&w`
reaches the rendered SVG as a raw, unescaped `"` — the output holds exactly
one more raw quote than the output for the quote-free name — while the
name's `<` is escaped (it contributes no raw `<`). -/
theorem c1_quote_unescaped_counterexample :
    countCh '"' (render_svg profileQuoteName 0)
      = countCh '"' (render_svg { profileQuoteName with personaname := "" } 0) + 1 ∧
    countCh '<' (render_svg profileQuoteName 0)
      = countCh '<' (render_svg { profileQuoteName with personaname := "" } 0) := by
  constructor
  · rw [count_render_personaname profileQuoteName 0 '"' (by decide)]
    rw [show (escape profileQuoteName.personaname.data).count '"' = 1 from by decide]
  · rw [count_render_personaname profileQuoteName 0 '<' (by decide), escape_count_lt]
    rw [Nat.add_zero]

/-- C1 (amended): every free-text field passes through the markup escaping
function, which escapes `<`, `>` and `&` but NOT `"`: for every profile the
display name contributes no raw `<` or `>` to the rendered SVG and exactly
one `&` per escaped character, but each `"` in the name reaches the output
unescaped, one for one. -/
theorem c1_renderer_escaping (p : SteamProfile) (now : Int) :
    countCh '<' (render_svg p now)
      = countCh '<' (render_svg { p with personaname := "" } now) ∧
    countCh '>' (render_svg p now)
      = countCh '>' (render_svg { p with personaname := "" } now) ∧
    countCh '&' (render_svg p now)
      = countCh '&' (render_svg { p with personaname := "" } now)
        + (p.personaname.data.count '&' + p.personaname.data.count '<'
           + p.personaname.data.count '>') ∧
    countCh '"' (render_svg p now)
      = countCh '"' (render_svg { p with personaname := "" } now)
        + p.personaname.data.count '"' := by
  refine ⟨?_, ?_, ?_, ?_⟩
  · rw [count_render_personaname p now '<' (by decide), escape_count_lt]
    rw [Nat.add_zero]
  · rw [count_render_personaname p now '>' (by decide), escape_count_gt]
    rw [Nat.add_zero]
  · rw [count_render_personaname p now '&' (by decide), escape_count_amp]
  · rw [count_render_personaname p now '"' (by decide), escape_count_quot]

/-! ## C3 — purity and clock dependence of the renderer -/

/-- C3 counterexample: `render_svg` is NOT independent of the wall clock —
the offline fixture rendered 7200 seconds after its logoff differs from the
same profile rendered 14400 seconds after it (status "Offline (2h ago)"
versus "Offline (4h ago)"). -/
theorem c3_clock_dependence_counterexample :
    render_svg profileClock 8200 ≠ render_svg profileClock 15400 := by
  intro h
  have h4 := congrArg (countCh '4') h
  rw [countCh_render '4' (by decide) profileClock 8200,
    countCh_render '4' (by decide) profileClock 15400] at h4
  unfold renderRaw at h4
  simp only [List.count_append] at h4
  rw [show statusOf profileClock 8200 = "Offline (2h ago)" from by decide,
    show statusOf profileClock 15400 = "Offline (4h ago)" from by decide] at h4
  rw [show (escape ("Offline (2h ago)" : String).data).count '4' = 0 from by decide,
    show (escape ("Offline (4h ago)" : String).data).count '4' = 1 from by decide] at h4
  omega

/-- C3 (amended): `render_svg` is a deterministic pure function of the
profile and the clock instant read by `SteamProfile.last_seen`; the clock
enters only through the status line, so any two instants with equal status
lines render identically, and in particular the output is clock-independent
whenever the profile is not offline or has no logoff timestamp. -/
theorem c3_render_determinism (p : SteamProfile) (t1 t2 : Int) :
    (statusOf p t1 = statusOf p t2 → render_svg p t1 = render_svg p t2) ∧
    (p.personastate ≠ 0 → render_svg p t1 = render_svg p t2) ∧
    (p.lastlogoff = none → render_svg p t1 = render_svg p t2) := by
  have hkey : statusOf p t1 = statusOf p t2 → render_svg p t1 = render_svg p t2 := by
    intro h
    unfold render_svg
    rw [h]
  refine ⟨hkey, fun hps => ?_, fun hll => ?_⟩
  · exact hkey ((statusOf_of_personastate_ne_zero p t1 hps).trans
      (statusOf_of_personastate_ne_zero p t2 hps).symm)
  · have h1 : last_seen t1 p.lastlogoff = none := by rw [hll]; rfl
    have h2 : last_seen t2 p.lastlogoff = none := by rw [hll]; rfl
    exact hkey ((statusOf_of_last_seen_none p t1 h1).trans
      (statusOf_of_last_seen_none p t2 h2).symm)

/-- Witness for C3 (amended): the online empty-lists fixture renders
identically at two different clock instants. -/
theorem c3_render_determinism_witness :
    render_svg profileEmptyLists 0 = render_svg profileEmptyLists 987654 :=
  (c3_render_determinism profileEmptyLists 0 987654).2.1 (by decide)
